import Mathlib

/-!
Shallow embedding of the sec_msg peer-to-peer chat node's protocol
orchestration layer, translated from the Rust sources:

* `src/protocol.rs` — `RateLimiter`, `Protocols` (subscribe / publish /
  unsubscribe over the Floodsub and Gossipsub mechanisms);
* `src/event.rs` — the swarm-event dispatcher (`handle_event` and the
  Floodsub/Gossipsub message handlers);
* `src/main.rs` — the control loop that feeds swarm events into the
  dispatcher and propagates its errors with `?`;
* `src/ui.rs` — the user-input command parser (`handle_user_input`).

Machine conventions: `PeerId` is an opaque `Nat`; byte payloads are
`List Nat`; `Instant` is a `Nat` timestamp passed explicitly as `now`
(the monotone clock), with `Duration` measured in milliseconds so that
`now - last` is Rust's saturating `Instant::duration_since`.  Rust
methods taking `&mut self` and returning `Result<T, E>` become functions
returning `Except E T × State`.  The two libp2p propagation mechanisms
are external collaborators: their locally observable state (subscribed
topics, queued publishes, the flood partial view) is modelled directly,
and the outcomes the library chooses (a gossipsub subscription or
publish failing) are supplied as explicit components of the mechanism
state (`failSubscribe`, `failPublish`).
-/

namespace SecMsg

/-! ### Rate limiter (`src/protocol.rs`, lines 22-49) -/

/-- `const RATE_LIMIT_INTERVAL: Duration = Duration::from_secs(60)`,
in milliseconds. -/
def RATE_LIMIT_INTERVAL : Nat := 60000

/-- `const MAX_MESSAGES_PER_INTERVAL: usize = 100`. -/
def MAX_MESSAGES_PER_INTERVAL : Nat := 100

/-- `limits: HashMap<PeerId, (Instant, usize)>` as an association list:
entries are `(peer, window_start, count)`. -/
structure RateLimiter where
  limits : List (Nat × Nat × Nat)
deriving DecidableEq

/-- `RateLimiter::new()`. -/
def RateLimiter.new : RateLimiter := ⟨[]⟩

/-- `HashMap` lookup on the association list. -/
def findLimit : List (Nat × Nat × Nat) → Nat → Option (Nat × Nat)
  | [], _ => none
  | (q, v) :: rest, p => if q = p then some v else findLimit rest p

/-- `HashMap` insert-or-replace on the association list. -/
def setLimit : List (Nat × Nat × Nat) → Nat → Nat × Nat → List (Nat × Nat × Nat)
  | [], p, v => [(p, v)]
  | (q, w) :: rest, p, v =>
      if q = p then (p, v) :: rest else (q, w) :: setLimit rest p v

/-- `RateLimiter::check_rate_limit(&mut self, peer_id) -> bool`.
`self.limits.entry(*peer_id).or_insert((now, 0))` is modelled by
defaulting a missing entry to `(now, 0)` and writing the updated record
back with `setLimit`; the window resets when the elapsed time strictly
exceeds `RATE_LIMIT_INTERVAL`, otherwise the count is incremented, and
the call is accepted iff the stored count is at most
`MAX_MESSAGES_PER_INTERVAL`. -/
def RateLimiter.check_rate_limit (rl : RateLimiter) (now : Nat) (peer_id : Nat) :
    Bool × RateLimiter :=
  let entry := (findLimit rl.limits peer_id).getD (now, 0)
  let last_msg_time := entry.1
  let msg_count := entry.2
  let updated : Nat × Nat :=
    if RATE_LIMIT_INTERVAL < now - last_msg_time then (now, 1)
    else (last_msg_time, msg_count + 1)
  (decide (updated.2 ≤ MAX_MESSAGES_PER_INTERVAL),
   ⟨setLimit rl.limits peer_id updated⟩)

/-- `k` successive `check_rate_limit` calls for the same peer, all with
the same timestamp `t` (hence all inside one window), collecting the
returned booleans in call order. -/
def callRepeat (rl : RateLimiter) (t p : Nat) : Nat → List Bool × RateLimiter
  | 0 => ([], rl)
  | k + 1 =>
      let s := callRepeat rl t p k
      let c := RateLimiter.check_rate_limit s.2 t p
      (s.1 ++ [c.1], c.2)

/-! ### Rate limiter lemmas -/

theorem findLimit_setLimit_self (l : List (Nat × Nat × Nat)) (p : Nat) (v : Nat × Nat) :
    findLimit (setLimit l p v) p = some v := by
  induction l with
  | nil => simp [setLimit, findLimit]
  | cons hd tl ih =>
      obtain ⟨q, w⟩ := hd
      by_cases hqp : q = p
      · simp [setLimit, findLimit, hqp]
      · simp [setLimit, findLimit, hqp, ih]

theorem findLimit_setLimit_isSome (l : List (Nat × Nat × Nat)) (p : Nat) (v : Nat × Nat)
    (q : Nat) (hq : (findLimit l q).isSome = true) :
    (findLimit (setLimit l p v) q).isSome = true := by
  induction l with
  | nil => simp [findLimit] at hq
  | cons hd tl ih =>
      obtain ⟨r, w⟩ := hd
      by_cases hrp : r = p
      · subst hrp
        by_cases hrq : r = q
        · simp [setLimit, findLimit, hrq]
        · simp [setLimit, findLimit, hrq] at hq ⊢
          exact hq
      · by_cases hrq : r = q
        · subst hrq
          simp [setLimit, findLimit, hrp]
        · simp [setLimit, findLimit, hrp, hrq] at hq ⊢
          exact ih hq

/-- The rate-limit record store after any call is `setLimit` of the store
before it: the call only writes one peer's record back. -/
theorem check_rate_limit_limits (rl : RateLimiter) (now p : Nat) :
    ∃ v, (RateLimiter.check_rate_limit rl now p).2.limits = setLimit rl.limits p v :=
  ⟨_, rfl⟩

/-- After `k` calls (`1 ≤ k ≤ 100`) at one timestamp `t` on a fresh
limiter, every call was accepted and the single record reads `(t, k)`. -/
theorem callRepeat_fresh (t p : Nat) :
    ∀ k, k ≤ MAX_MESSAGES_PER_INTERVAL → 1 ≤ k →
    callRepeat RateLimiter.new t p k = (List.replicate k true, ⟨[(p, t, k)]⟩)
  | 0, _, h1 => by omega
  | 1, _, _ => by
      simp [callRepeat, RateLimiter.check_rate_limit, RateLimiter.new, findLimit,
            setLimit, RATE_LIMIT_INTERVAL, MAX_MESSAGES_PER_INTERVAL]
  | k + 2, hle, _ => by
      have ih := callRepeat_fresh t p (k + 1) (by omega) (by omega)
      simp [MAX_MESSAGES_PER_INTERVAL] at hle
      have step : callRepeat RateLimiter.new t p (k + 2)
          = ((callRepeat RateLimiter.new t p (k + 1)).1 ++
              [(RateLimiter.check_rate_limit (callRepeat RateLimiter.new t p (k + 1)).2 t p).1],
             (RateLimiter.check_rate_limit (callRepeat RateLimiter.new t p (k + 1)).2 t p).2) := rfl
      rw [step, ih]
      simp [RateLimiter.check_rate_limit, findLimit, setLimit, RATE_LIMIT_INTERVAL,
            MAX_MESSAGES_PER_INTERVAL, List.replicate_succ', Nat.sub_self,
            Nat.not_lt_zero, decide_eq_true_eq]
      omega

/-- C2: on a fresh rate limiter, a previously-unseen peer's first
`MAX_MESSAGES_PER_INTERVAL` (100) calls within one window are all
accepted, the 101st call in the same window is rejected, and in general
a call inside the current window is accepted iff the incremented count
is at most the maximum. -/
theorem c2_rate_limit_boundary (p t : Nat) :
    (callRepeat RateLimiter.new t p MAX_MESSAGES_PER_INTERVAL).1
        = List.replicate MAX_MESSAGES_PER_INTERVAL true
  ∧ (RateLimiter.check_rate_limit
        (callRepeat RateLimiter.new t p MAX_MESSAGES_PER_INTERVAL).2 t p).1 = false
  ∧ ∀ (rl : RateLimiter) (last c : Nat),
      findLimit rl.limits p = some (last, c) →
      t - last ≤ RATE_LIMIT_INTERVAL →
      ((RateLimiter.check_rate_limit rl t p).1 = true ↔
        c + 1 ≤ MAX_MESSAGES_PER_INTERVAL) := by
  have hrun := callRepeat_fresh t p MAX_MESSAGES_PER_INTERVAL (le_refl _) (by decide)
  refine ⟨by rw [hrun], ?_, ?_⟩
  · rw [hrun]
    simp [RateLimiter.check_rate_limit, findLimit, RATE_LIMIT_INTERVAL,
          MAX_MESSAGES_PER_INTERVAL, Nat.sub_self, Nat.not_lt_zero]
  · intro rl last c hl hw
    simp [RateLimiter.check_rate_limit, hl, Nat.not_lt.mpr hw, decide_eq_true_eq]

theorem c2_witness :
    (callRepeat RateLimiter.new 0 0 MAX_MESSAGES_PER_INTERVAL).1
        = List.replicate MAX_MESSAGES_PER_INTERVAL true
  ∧ ((RateLimiter.check_rate_limit ⟨[(0, 0, 3)]⟩ 0 0).1 = true ↔
        3 + 1 ≤ MAX_MESSAGES_PER_INTERVAL) :=
  ⟨(c2_rate_limit_boundary 0 0).1,
   (c2_rate_limit_boundary 0 0).2.2 ⟨[(0, 0, 3)]⟩ 0 3 (by decide) (by decide)⟩

/-- C4: when the elapsed time since the stored `window_start` strictly
exceeds the interval, the next call resets the record to `(now, 1)` and
is accepted, whatever the previous count was (so also for a peer
rejected in the previous window). -/
theorem c4_window_reset (rl : RateLimiter) (p last c t : Nat)
    (hl : findLimit rl.limits p = some (last, c))
    (hexp : RATE_LIMIT_INTERVAL < t - last) :
    (RateLimiter.check_rate_limit rl t p).1 = true
  ∧ findLimit (RateLimiter.check_rate_limit rl t p).2.limits p = some (t, 1) := by
  constructor
  · simp [RateLimiter.check_rate_limit, hl, hexp, MAX_MESSAGES_PER_INTERVAL]
  · simp only [RateLimiter.check_rate_limit, hl]
    simp [hexp, findLimit_setLimit_self]

theorem c4_witness :
    (RateLimiter.check_rate_limit ⟨[(3, 0, 500)]⟩ 60001 3).1 = true
  ∧ findLimit (RateLimiter.check_rate_limit ⟨[(3, 0, 500)]⟩ 60001 3).2.limits 3
      = some (60001, 1) :=
  c4_window_reset ⟨[(3, 0, 500)]⟩ 3 0 500 60001 (by decide) (by decide)

/-- C10: the record store only grows — any peer that had a record before
a `check_rate_limit` call still has one after it, and the peer the call
was about has one as well; no call ever removes a record. -/
theorem c10_records_only_grow (rl : RateLimiter) (t p q : Nat)
    (hq : (findLimit rl.limits q).isSome = true) :
    (findLimit (RateLimiter.check_rate_limit rl t p).2.limits q).isSome = true
  ∧ (findLimit (RateLimiter.check_rate_limit rl t p).2.limits p).isSome = true := by
  obtain ⟨v, hv⟩ := check_rate_limit_limits rl t p
  rw [hv]
  exact ⟨findLimit_setLimit_isSome rl.limits p v q hq,
         by rw [findLimit_setLimit_self]; rfl⟩

theorem c10_witness :
    (findLimit (RateLimiter.check_rate_limit ⟨[(2, 5, 7)]⟩ 9 4).2.limits 2).isSome = true
  ∧ (findLimit (RateLimiter.check_rate_limit ⟨[(2, 5, 7)]⟩ 9 4).2.limits 4).isSome = true :=
  c10_records_only_grow ⟨[(2, 5, 7)]⟩ 9 4 2 (by decide)

/-! ### The two propagation mechanisms (external libp2p collaborators)

Only their locally observable behaviour, as used by `src/protocol.rs`
and `src/event.rs`, is modelled: `Floodsub::subscribe` records the topic
and returns `false` when already subscribed; `Floodsub::publish` is
fire-and-forget; `add_node_to_partial_view` records a peer as a flood
target.  Gossipsub's `subscribe`/`publish` can fail for reasons internal
to the library or the network (e.g. `InsufficientPeers`), so which
topics fail is part of the modelled mechanism state (`failSubscribe`,
`failPublish`). -/

/-- Observable state of the Floodsub behaviour. -/
structure FloodsubState where
  subscribedTopics : List String
  published : List (String × List Nat)
  target_peers : List Nat
deriving DecidableEq

/-- `Floodsub::subscribe(topic) -> bool`: `true` iff newly subscribed;
no change when the topic was already subscribed. -/
def Floodsub.subscribe (s : FloodsubState) (topic : String) : Bool × FloodsubState :=
  if topic ∈ s.subscribedTopics then (false, s)
  else (true, { s with subscribedTopics := topic :: s.subscribedTopics })

/-- `Floodsub::publish(topic, data)`: fire-and-forget, no failure
signal. -/
def Floodsub.publish (s : FloodsubState) (topic : String) (data : List Nat) :
    FloodsubState :=
  { s with published := (topic, data) :: s.published }

/-- `Floodsub::add_node_to_partial_view(peer_id)`. -/
def Floodsub.add_node_to_partial_view (s : FloodsubState) (peer : Nat) : FloodsubState :=
  if peer ∈ s.target_peers then s
  else { s with target_peers := peer :: s.target_peers }

/-- `gossipsub::PublishError` (only the variant the repository's own
test names is distinguished). -/
inductive PublishError where
  | InsufficientPeers : PublishError
  | otherError : String → PublishError
deriving DecidableEq

/-- Observable state of the Gossipsub behaviour, together with the
library-chosen outcomes: topics in `failSubscribe` make
`Gossipsub::subscribe` return `Err`, topics in `failPublish` make
`Gossipsub::publish` return `Err(InsufficientPeers)`. -/
structure GossipsubState where
  topics : List String
  published : List (String × List Nat)
  failSubscribe : List String
  failPublish : List String
deriving DecidableEq

/-- `gossipsub::Behaviour::subscribe(&topic) -> Result<bool, _>`:
`Ok(false)` when already subscribed, `Ok(true)` after a new
subscription, `Err` when the library rejects the topic. -/
def Gossipsub.subscribe (s : GossipsubState) (topic : String) :
    Except Unit (Bool × GossipsubState) :=
  if topic ∈ s.failSubscribe then .error ()
  else if topic ∈ s.topics then .ok (false, s)
  else .ok (true, { s with topics := topic :: s.topics })

/-- `gossipsub::Behaviour::publish(topic, data) -> Result<_, PublishError>`. -/
def Gossipsub.publish (s : GossipsubState) (topic : String) (data : List Nat) :
    Except PublishError GossipsubState :=
  if topic ∈ s.failPublish then .error .InsufficientPeers
  else .ok { s with published := (topic, data) :: s.published }

/-! ### Protocol router (`src/protocol.rs`, lines 51-167) -/

/-- `ProtocolError` from `src/error.rs` plus the `InvalidInput` variant
that `Protocols::publish` in `src/protocol.rs` constructs for an empty
topic. -/
inductive ProtocolError where
  | Subscription : String → ProtocolError
  | Publish : PublishError → ProtocolError
  | GossipsubCreation : String → ProtocolError
  | InvalidInput : String → ProtocolError
deriving DecidableEq

/-- `pub struct Protocols { floodsub: Floodsub, gossipsub: gossipsub::Behaviour }`. -/
structure Protocols where
  floodsub : FloodsubState
  gossipsub : GossipsubState
deriving DecidableEq

/-- `Protocols::subscribe(&mut self, topic) -> Result<(), ProtocolError>`:
first the Floodsub registration (early error return when it reports
`false`), then the Gossipsub registration (error mapped to
`Subscription`, the already-performed Floodsub mutation kept). -/
def Protocols.subscribe (p : Protocols) (topic : String) :
    Except ProtocolError Unit × Protocols :=
  let fr := Floodsub.subscribe p.floodsub topic
  let p1 : Protocols := { p with floodsub := fr.2 }
  if !fr.1 then
    (.error (.Subscription ("Failed to subscribe to Floodsub topic: " ++ topic)), p1)
  else
    match Gossipsub.subscribe p1.gossipsub topic with
    | .error _ =>
        (.error (.Subscription ("Failed to subscribe to Gossipsub topic: " ++ topic)), p1)
    | .ok gr => (.ok (), { p1 with gossipsub := gr.2 })

/-- `Protocols::publish(&mut self, topic, data) -> Result<(), ProtocolError>`:
empty-topic guard first, then the Floodsub send, then the Gossipsub send
whose failure is propagated via `From<PublishError>` as
`ProtocolError::Publish` with the Floodsub mutation kept. -/
def Protocols.publish (p : Protocols) (topic : String) (data : List Nat) :
    Except ProtocolError Unit × Protocols :=
  if topic.isEmpty then
    (.error (.InvalidInput "topic cannot be empty"), p)
  else
    let p1 : Protocols := { p with floodsub := Floodsub.publish p.floodsub topic data }
    match Gossipsub.publish p1.gossipsub topic data with
    | .error e => (.error (.Publish e), p1)
    | .ok gs => (.ok (), { p1 with gossipsub := gs })

/-- `Protocols::unsubscribe(&mut self, topic)`: logs and returns
`Ok(())` without touching any state. -/
def Protocols.unsubscribe (p : Protocols) (_topic : String) :
    Except ProtocolError Unit × Protocols :=
  (.ok (), p)

/-- C5: publishing to the empty topic fails with the `InvalidInput` kind
and leaves the whole router state — both mechanisms — untouched: neither
mechanism's send is invoked. -/
theorem c5_empty_topic_publish (p : Protocols) (data : List Nat) :
    Protocols.publish p "" data
      = (.error (.InvalidInput "topic cannot be empty"), p) := rfl

/-- C6: subscribe tries the flood registration first; a flood failure
returns `Subscription` with the router unchanged (the mesh is never
attempted); a mesh failure after a flood success returns `Subscription`
while the flood subscription stays active and the mesh state stays
unchanged; success happens exactly when both registrations succeed, and
then both mechanisms hold the topic. -/
theorem c6_subscribe_two_phase (p : Protocols) (topic : String) :
    ((Floodsub.subscribe p.floodsub topic).1 = false →
        Protocols.subscribe p topic
          = (.error (.Subscription ("Failed to subscribe to Floodsub topic: " ++ topic)), p))
  ∧ ((Floodsub.subscribe p.floodsub topic).1 = true →
     topic ∈ p.gossipsub.failSubscribe →
        Protocols.subscribe p topic
          = (.error (.Subscription ("Failed to subscribe to Gossipsub topic: " ++ topic)),
             { p with floodsub := (Floodsub.subscribe p.floodsub topic).2 })
      ∧ topic ∈ (Protocols.subscribe p topic).2.floodsub.subscribedTopics
      ∧ (Protocols.subscribe p topic).2.gossipsub = p.gossipsub)
  ∧ ((Protocols.subscribe p topic).1 = .ok () ↔
        (Floodsub.subscribe p.floodsub topic).1 = true
      ∧ topic ∉ p.gossipsub.failSubscribe)
  ∧ ((Protocols.subscribe p topic).1 = .ok () →
        topic ∈ (Protocols.subscribe p topic).2.floodsub.subscribedTopics
      ∧ topic ∈ (Protocols.subscribe p topic).2.gossipsub.topics) := by
  by_cases hmem : topic ∈ p.floodsub.subscribedTopics
  · simp [Protocols.subscribe, Floodsub.subscribe, hmem]
  · by_cases hfail : topic ∈ p.gossipsub.failSubscribe
    · simp [Protocols.subscribe, Floodsub.subscribe, Gossipsub.subscribe, hmem, hfail]
    · by_cases hgt : topic ∈ p.gossipsub.topics
      · simp [Protocols.subscribe, Floodsub.subscribe, Gossipsub.subscribe,
              hmem, hfail, hgt]
      · simp [Protocols.subscribe, Floodsub.subscribe, Gossipsub.subscribe,
              hmem, hfail, hgt]

theorem c6_witness :
    (Protocols.subscribe ⟨⟨["chat"], [], []⟩, ⟨[], [], [], []⟩⟩ "chat"
      = (.error (.Subscription ("Failed to subscribe to Floodsub topic: " ++ "chat")),
         ⟨⟨["chat"], [], []⟩, ⟨[], [], [], []⟩⟩))
  ∧ ("chat" ∈ (Protocols.subscribe ⟨⟨[], [], []⟩, ⟨[], [], ["chat"], []⟩⟩
        "chat").2.floodsub.subscribedTopics
     ∧ (Protocols.subscribe ⟨⟨[], [], []⟩, ⟨[], [], ["chat"], []⟩⟩ "chat").2.gossipsub
        = ⟨[], [], ["chat"], []⟩)
  ∧ (Protocols.subscribe ⟨⟨[], [], []⟩, ⟨[], [], [], []⟩⟩ "chat").1 = .ok () :=
  ⟨(c6_subscribe_two_phase ⟨⟨["chat"], [], []⟩, ⟨[], [], [], []⟩⟩ "chat").1 (by decide),
   ⟨((c6_subscribe_two_phase ⟨⟨[], [], []⟩, ⟨[], [], ["chat"], []⟩⟩ "chat").2.1
        (by decide) (by decide)).2.1,
    ((c6_subscribe_two_phase ⟨⟨[], [], []⟩, ⟨[], [], ["chat"], []⟩⟩ "chat").2.1
        (by decide) (by decide)).2.2⟩,
   (c6_subscribe_two_phase ⟨⟨[], [], []⟩, ⟨[], [], [], []⟩⟩ "chat").2.2.1.mpr
      ⟨by decide, by decide⟩⟩

/-- C7: for a non-empty topic, the flood send always happens (it is
fire-and-forget: the message is queued on the flood side whatever the
mesh does); a mesh failure is surfaced as `Publish` to the caller even
though the flood send already occurred, and mesh success yields `Ok`
with both sends recorded — publish is not atomic across the two
mechanisms. -/
theorem c7_publish_not_atomic (p : Protocols) (topic : String) (data : List Nat)
    (hne : topic ≠ "") :
    (Protocols.publish p topic data).2.floodsub.published
        = (topic, data) :: p.floodsub.published
  ∧ (topic ∈ p.gossipsub.failPublish →
       (Protocols.publish p topic data).1 = .error (.Publish .InsufficientPeers)
     ∧ (Protocols.publish p topic data).2.gossipsub = p.gossipsub)
  ∧ (topic ∉ p.gossipsub.failPublish →
       (Protocols.publish p topic data).1 = .ok ()
     ∧ (Protocols.publish p topic data).2.gossipsub.published
         = (topic, data) :: p.gossipsub.published) := by
  have hie : topic.isEmpty = false := by
    cases h : topic.isEmpty
    · rfl
    · exact absurd ((String.isEmpty_iff topic).mp h) hne
  by_cases hfp : topic ∈ p.gossipsub.failPublish
  · simp [Protocols.publish, Floodsub.publish, Gossipsub.publish, hie, hfp]
  · simp [Protocols.publish, Floodsub.publish, Gossipsub.publish, hie, hfp]

theorem c7_witness :
    ((Protocols.publish ⟨⟨[], [], []⟩, ⟨[], [], [], ["chat"]⟩⟩ "chat"
        [104]).2.floodsub.published = [("chat", [104])]
     ∧ (Protocols.publish ⟨⟨[], [], []⟩, ⟨[], [], [], ["chat"]⟩⟩ "chat" [104]).1
        = .error (.Publish .InsufficientPeers))
  ∧ (Protocols.publish ⟨⟨[], [], []⟩, ⟨[], [], [], []⟩⟩ "chat" [104]).1 = .ok () :=
  ⟨⟨(c7_publish_not_atomic ⟨⟨[], [], []⟩, ⟨[], [], [], ["chat"]⟩⟩ "chat" [104]
        (by decide)).1,
    ((c7_publish_not_atomic ⟨⟨[], [], []⟩, ⟨[], [], [], ["chat"]⟩⟩ "chat" [104]
        (by decide)).2.1 (by decide)).1⟩,
   ((c7_publish_not_atomic ⟨⟨[], [], []⟩, ⟨[], [], [], []⟩⟩ "chat" [104]
        (by decide)).2.2 (by decide)).1⟩

/-- C9: unsubscribe succeeds for every topic and is a no-op — the whole
router state, including both mechanisms' subscriptions, is returned
unchanged. -/
theorem c9_unsubscribe_noop (p : Protocols) (topic : String) :
    Protocols.unsubscribe p topic = (.ok (), p) := rfl

/-! ### Event dispatcher (`src/event.rs`) and control loop (`src/main.rs`) -/

/-- `EventError` from `src/error.rs`. -/
inductive EventError where
  | FloodsubEvent : String → EventError
  | GossipsubEvent : String → EventError
  | UnhandledSwarm : String → EventError
deriving DecidableEq

/-- `NetworkError` from `src/error.rs` (the variants `src/event.rs`
constructs). -/
inductive NetworkError where
  | Connection : String → NetworkError
  | ConnectionClose : String → NetworkError
  | IncomingConnection : String → NetworkError
deriving DecidableEq

/-- `AppError` from `src/error.rs` (its `From` impls are the `.into()`
calls in `src/event.rs`). -/
inductive AppError where
  | Protocol : ProtocolError → AppError
  | Event : EventError → AppError
  | Network : NetworkError → AppError
deriving DecidableEq

/-- `libp2p::floodsub::FloodsubEvent`. -/
inductive FloodsubEvent where
  | message (source : Nat) (data : List Nat)
  | subscribed (peer : Nat) (topic : String)
  | unsubscribed (peer : Nat) (topic : String)
deriving DecidableEq

/-- `libp2p::gossipsub::Event` (the message variant carries the
propagation source, the mechanism-assigned message id, the optional
signing source, and the payload). -/
inductive GossipsubEvent where
  | message (propagation_source : Nat) (message_id : Nat) (source : Option Nat)
      (data : List Nat)
  | subscribed (peer : Nat) (topic : String)
  | unsubscribed (peer : Nat) (topic : String)
  | notSupported (peer : Nat)
deriving DecidableEq

/-- `ProtocolEvent` from `src/protocol.rs`. -/
inductive ProtocolEvent where
  | Floodsub : FloodsubEvent → ProtocolEvent
  | Gossipsub : GossipsubEvent → ProtocolEvent
deriving DecidableEq

/-- `libp2p::swarm::SwarmEvent` (the arms `src/event.rs` matches;
`otherEvent` is its final `_` arm). -/
inductive SwarmEvent where
  | behaviour (e : ProtocolEvent)
  | newListenAddr (listener_id : Nat) (address : String)
  | connectionEstablished (peer_id : Nat) (num_established : Nat)
  | connectionClosed (peer_id : Nat) (num_established : Nat) (cause : Option String)
  | incomingConnection (local_addr : String) (send_back_addr : String)
  | incomingConnectionError (local_addr : String) (error : String)
  | dialing (peer_id : Option Nat)
  | otherEvent
deriving DecidableEq

/-- `std::num::NonZero::new`: `None` exactly at zero. -/
def nonZeroNew (n : Nat) : Option Nat :=
  if n = 0 then none else some n

/-- Outcome of one dispatcher call: the Rust `Result` plus the `&mut`
state it leaves behind, with a dedicated constructor for a Rust `panic!`
(an `unwrap` of `None`), which returns no value at all. -/
inductive HandleResult where
  | ok (swarm : Protocols) (rate_limiter : RateLimiter)
  | err (e : AppError) (swarm : Protocols) (rate_limiter : RateLimiter)
  | panicked (msg : String)
deriving DecidableEq

/-- `handle_floodsub_event` (`src/event.rs`, lines 119-141): rate-gates
`Message` on its `source`, rejecting with a `FloodsubEvent` error;
any other variant is an unexpected-event error. -/
def handle_floodsub_event (event : FloodsubEvent) (rate_limiter : RateLimiter)
    (now : Nat) : Except EventError Unit × RateLimiter :=
  match event with
  | .message source _data =>
      let c := RateLimiter.check_rate_limit rate_limiter now source
      if c.1 then (.ok (), c.2)
      else (.error (.FloodsubEvent "Rate limit exceeded"), c.2)
  | _ => (.error (.FloodsubEvent "Unexpected Floodsub event"), rate_limiter)

/-- `handle_gossipsub_event` (`src/event.rs`, lines 148-176): rate-gates
`Message` on its `propagation_source`. -/
def handle_gossipsub_event (event : GossipsubEvent) (rate_limiter : RateLimiter)
    (now : Nat) : Except EventError Unit × RateLimiter :=
  match event with
  | .message propagation_source _ _ _ =>
      let c := RateLimiter.check_rate_limit rate_limiter now propagation_source
      if c.1 then (.ok (), c.2)
      else (.error (.GossipsubEvent "Rate limit exceeded"), c.2)
  | _ => (.error (.GossipsubEvent "Unexpected Gossipsub event"), rate_limiter)

/-- `handle_event` (`src/event.rs`, lines 21-112).  The
`ConnectionEstablished` arm is translated exactly as written: it first
evaluates `std::num::NonZero::new(0).unwrap()` to build the value to
compare `num_established` against, so the `unwrap` of `None` is reached
before any comparison or bookkeeping. -/
def handle_event (event : SwarmEvent) (swarm : Protocols)
    (rate_limiter : RateLimiter) (now : Nat) : HandleResult :=
  match event with
  | .behaviour (.Floodsub fe) =>
      let r := handle_floodsub_event fe rate_limiter now
      match r.1 with
      | .ok _ => .ok swarm r.2
      | .error e => .err (.Event e) swarm r.2
  | .behaviour (.Gossipsub ge) =>
      let r := handle_gossipsub_event ge rate_limiter now
      match r.1 with
      | .ok _ => .ok swarm r.2
      | .error e => .err (.Event e) swarm r.2
  | .newListenAddr _ _ => .ok swarm rate_limiter
  | .connectionEstablished peer_id num_established =>
      match nonZeroNew 0 with
      | none => .panicked "called Option::unwrap on a None value"
      | some z =>
          if num_established = z then
            .err (.Network (.Connection "Failed to establish connection with peer"))
              swarm rate_limiter
          else
            .ok { swarm with
                    floodsub := Floodsub.add_node_to_partial_view swarm.floodsub peer_id }
              rate_limiter
  | .connectionClosed _ _ cause =>
      match cause with
      | some error => .err (.Network (.ConnectionClose error)) swarm rate_limiter
      | none => .ok swarm rate_limiter
  | .incomingConnection _ _ => .ok swarm rate_limiter
  | .incomingConnectionError _ error =>
      .err (.Network (.IncomingConnection error)) swarm rate_limiter
  | .dialing _ => .ok swarm rate_limiter
  | .otherEvent => .err (.Event (.UnhandledSwarm "Unknown swarm event")) swarm rate_limiter

/-- One iteration of `main`'s loop on the swarm-event branch
(`src/main.rs`, lines 57-60): `handle_event(...).await?` — an `Ok`
continues the loop with the updated state, an `Err` is propagated out of
`main` by `?`, ending the loop; a panic aborts. -/
inductive LoopOutcome where
  | continues (swarm : Protocols) (rate_limiter : RateLimiter)
  | exited (e : AppError)
  | panicked (msg : String)
deriving DecidableEq

def main_loop_swarm_step (event : SwarmEvent) (swarm : Protocols)
    (rate_limiter : RateLimiter) (now : Nat) : LoopOutcome :=
  match handle_event event swarm rate_limiter now with
  | .ok s r => .continues s r
  | .err e _ _ => .exited e
  | .panicked m => .panicked m

/-- C1 counterexample: a concrete flood message from a peer already at
the limit (count 100 in the current window) makes the control-loop
step exit with an error instead of continuing to the next event — the
rate-limit rejection is not handled locally. -/
theorem c1_counterexample :
    main_loop_swarm_step (.behaviour (.Floodsub (.message 7 [104])))
        ⟨⟨[], [], []⟩, ⟨[], [], [], []⟩⟩ ⟨[(7, 0, 100)]⟩ 0
      = .exited (.Event (.FloodsubEvent "Rate limit exceeded")) := rfl

/-- C1 amended: whenever the rate limiter rejects the sender of an
inbound flood or mesh message, the dispatcher returns an event error,
which the control loop propagates with `?` — the loop exits instead of
reading the next event. -/
theorem c1_rate_limit_exits_loop (swarm : Protocols) (rl : RateLimiter)
    (now src : Nat) (data : List Nat)
    (hrej : (RateLimiter.check_rate_limit rl now src).1 = false) :
    main_loop_swarm_step (.behaviour (.Floodsub (.message src data))) swarm rl now
      = .exited (.Event (.FloodsubEvent "Rate limit exceeded"))
  ∧ ∀ (mid : Nat) (msrc : Option Nat),
      main_loop_swarm_step (.behaviour (.Gossipsub (.message src mid msrc data)))
          swarm rl now
        = .exited (.Event (.GossipsubEvent "Rate limit exceeded")) := by
  constructor
  · simp [main_loop_swarm_step, handle_event, handle_floodsub_event, hrej]
  · intro mid msrc
    simp [main_loop_swarm_step, handle_event, handle_gossipsub_event, hrej]

theorem c1_witness :
    main_loop_swarm_step (.behaviour (.Floodsub (.message 7 [104, 105])))
        ⟨⟨[], [], []⟩, ⟨[], [], [], []⟩⟩ ⟨[(7, 0, 100)]⟩ 0
      = .exited (.Event (.FloodsubEvent "Rate limit exceeded"))
  ∧ main_loop_swarm_step (.behaviour (.Gossipsub (.message 7 1 (some 7) [104, 105])))
        ⟨⟨[], [], []⟩, ⟨[], [], [], []⟩⟩ ⟨[(7, 0, 100)]⟩ 0
      = .exited (.Event (.GossipsubEvent "Rate limit exceeded")) :=
  ⟨(c1_rate_limit_exits_loop ⟨⟨[], [], []⟩, ⟨[], [], [], []⟩⟩ ⟨[(7, 0, 100)]⟩ 0 7
      [104, 105] (by decide)).1,
   (c1_rate_limit_exits_loop ⟨⟨[], [], []⟩, ⟨[], [], [], []⟩⟩ ⟨[(7, 0, 100)]⟩ 0 7
      [104, 105] (by decide)).2 1 (some 7)⟩

/-- C3: on every connection-established event — whatever the reported
established count, the swarm state or the rate limiter — the dispatcher
evaluates `std::num::NonZero::new(0).unwrap()` and panics before it can
compare the count, return a `Connection` error, or add the peer to the
partial view. -/
theorem c3_connection_established_panics (peer n : Nat) (swarm : Protocols)
    (rl : RateLimiter) (now : Nat) :
    handle_event (.connectionEstablished peer n) swarm rl now
      = .panicked "called Option::unwrap on a None value" := rfl

/-! ### User input handling (`src/ui.rs`) -/

/-- Observable action chosen by `handle_user_input` for one input line.
A dial or publish can itself fail later; that failure is only logged, so
the action category is what the claim is about. -/
inductive UiAction where
  | dialRequest (addr : String)
  | invalidMultiaddr
  | usageError
  | publishMsg (topic : String) (data : String)
deriving DecidableEq

/-- Rust's `str::starts_with` on the character list (executable, unlike
`String.startsWith`, so concrete lines can be decided). -/
def listStartsWith : List Char → List Char → Bool
  | _, [] => true
  | [], _ :: _ => false
  | c :: cs, p :: ps => if c = p then listStartsWith cs ps else false

def strStartsWith (s pre : String) : Bool :=
  listStartsWith s.data pre.data

/-- Rust's `str::split_whitespace`: the non-empty maximal runs between
whitespace characters, accumulated character by character. -/
def splitWhitespaceAux : List Char → List Char → List String
  | [], acc => if acc = [] then [] else [String.mk acc.reverse]
  | c :: cs, acc =>
      if c.isWhitespace then
        if acc = [] then splitWhitespaceAux cs []
        else String.mk acc.reverse :: splitWhitespaceAux cs []
      else splitWhitespaceAux cs (c :: acc)

def splitWhitespaceStr (s : String) : List String :=
  splitWhitespaceAux s.data []

/-- `handle_user_input` (`src/ui.rs`, lines 18-40): the command branch
is taken when the line merely starts with `/connect` (no separator
required); with exactly two whitespace parts it dials the second part if
it parses as a multiaddress (`parseMultiaddr` stands for the external
`Multiaddr` parser) and logs a parse error otherwise; any other part
count logs a usage error; every other line is published verbatim to the
configured topic. -/
def handle_user_input (parseMultiaddr : String → Option String) (line : String)
    (topic : String) : UiAction :=
  if strStartsWith line "/connect" then
    match splitWhitespaceStr line with
    | [_cmd, addrTok] =>
        match parseMultiaddr addrTok with
        | some _addr => .dialRequest addrTok
        | none => .invalidMultiaddr
    | _ => .usageError
  else .publishMsg topic line

/-- C8 counterexample: `"/connect\tabc"` does not begin with
`"/connect "` yet is treated as a dial request (neither published nor
ignored), and the non-empty line `"/connectx"` is logged as a usage
error instead of being published. -/
theorem c8_counterexample :
    (strStartsWith "/connect\tabc" "/connect " = false
     ∧ handle_user_input (fun s => some s) "/connect\tabc" "chat" = .dialRequest "abc"
     ∧ handle_user_input (fun s => some s) "/connect\tabc" "chat"
         ≠ .publishMsg "chat" "/connect\tabc")
  ∧ (strStartsWith "/connectx" "/connect " = false
     ∧ "/connectx" ≠ ""
     ∧ handle_user_input (fun s => some s) "/connectx" "chat" = .usageError) := by
  decide

/-- C8 amended: a line is published verbatim to the configured topic iff
it does not begin with the prefix `/connect` (no following space
required); it is a dial request to its second whitespace token iff it
begins with `/connect`, splits into exactly two whitespace tokens and
the second parses as a multiaddress; any other `/connect`-prefixed line
is only logged (usage error or invalid address) and ignored, with no
error returned to the user. -/
theorem c8_input_grammar (parseMultiaddr : String → Option String)
    (line topic : String) :
    (handle_user_input parseMultiaddr line topic = .publishMsg topic line
        ↔ strStartsWith line "/connect" = false)
  ∧ (∀ addr, handle_user_input parseMultiaddr line topic = .dialRequest addr
        ↔ strStartsWith line "/connect" = true
          ∧ ∃ cmd, splitWhitespaceStr line = [cmd, addr]
              ∧ (parseMultiaddr addr).isSome = true)
  ∧ (strStartsWith line "/connect" = true →
     (¬ ∃ cmd addr, splitWhitespaceStr line = [cmd, addr]
          ∧ (parseMultiaddr addr).isSome = true) →
       (handle_user_input parseMultiaddr line topic = .usageError
        ∨ handle_user_input parseMultiaddr line topic = .invalidMultiaddr)) := by
  by_cases hsw : strStartsWith line "/connect" = true
  · cases hsp : splitWhitespaceStr line with
    | nil => simp [handle_user_input, hsw, hsp]
    | cons c rest =>
      cases rest with
      | nil => simp [handle_user_input, hsw, hsp]
      | cons a rest2 =>
        cases rest2 with
        | nil =>
            cases hp : parseMultiaddr a with
            | none => simp [handle_user_input, hsw, hsp, hp]
            | some v => simp [handle_user_input, hsw, hsp, hp]
        | cons x xs => simp [handle_user_input, hsw, hsp]
  · simp [handle_user_input, hsw]

theorem c8_witness :
    handle_user_input (fun s => some s) "/connect /ip4/1.2.3.4" "chat"
      = .dialRequest "/ip4/1.2.3.4"
  ∧ handle_user_input (fun s => some s) "hello world" "chat"
      = .publishMsg "chat" "hello world" :=
  ⟨((c8_input_grammar (fun s => some s) "/connect /ip4/1.2.3.4" "chat").2.1
      "/ip4/1.2.3.4").mpr ⟨by decide, "/connect", by decide, by decide⟩,
   (c8_input_grammar (fun s => some s) "hello world" "chat").1.mpr (by decide)⟩

end SecMsg
